import Mathlib

/-!
Verification development for the `garmin_fetch` GPX fetcher
(`scripts/garmin_fetch.py`).

The program is embedded shallowly:

* JSON configuration dictionaries become nested structures of `Option`
  fields (`none` = key absent); Python truthiness of a looked-up string
  is the Boolean `truthy`.
* The external `op` secret-manager tool is an oracle
  `String → String → Option String` taking the reference string and the
  account; `none` models `CalledProcessError` / `FileNotFoundError`
  (tool missing or non-zero exit), `some out` models captured stdout.
* The process environment is an oracle `String → Option String`
  (`os.environ.get`).
* The remote download call is an oracle `Int → Except String String`;
  `Except.error e` models an exception with message `e`.
* `sys.exit` / stderr / stdout / filesystem effects are reified as data:
  credential resolution returns a `CredResult`, and the fetch functions
  return an ordered trace of `Ev` events.
-/

/-- The `onepassword` subsection of the configuration
(`config["garmin"]["onepassword"]`); every key is optional. -/
structure OpConfig where
  account : Option String := none
  item : Option String := none
  vault : Option String := none
  email_field : Option String := none
  password_field : Option String := none
deriving Repr, DecidableEq

/-- The `garmin` section of the configuration. -/
structure GarminConfig where
  onepassword : Option OpConfig := none
deriving Repr, DecidableEq

/-- The whole configuration document (`load_config` result); `{}` models
an empty or absent `config.json`. -/
structure Config where
  garmin : Option GarminConfig := none
deriving Repr, DecidableEq

/-- Python truthiness of `dict.get(key)` for a string-valued key:
`None` (absent) and `""` are falsy, any other string is truthy. -/
def truthy (o : Option String) : Bool :=
  !((o.getD ("")) == "")

/-- `op_config = config.get("garmin", {}).get("onepassword", {})`. -/
def opCfgOf (cfg : Config) : OpConfig :=
  (cfg.garmin.getD {}).onepassword.getD {}

/-- `op_config.get("account") and op_config.get("item")` — the guard that
selects the 1Password path in `get_credentials`. -/
def opConfigured (cfg : Config) : Bool :=
  truthy (opCfgOf cfg).account && truthy (opCfgOf cfg).item

/-- `vault = op_config.get("vault", "Private")`. -/
def vaultOf (cfg : Config) : String :=
  (opCfgOf cfg).vault.getD ("Private")

/-- `item = op_config["item"]` (the guard guarantees the key is present
and nonempty; `getD ""` is only a total rendering of the direct index). -/
def itemOf (cfg : Config) : String :=
  (opCfgOf cfg).item.getD ("")

/-- `account = op_config["account"]`. -/
def accountOf (cfg : Config) : String :=
  (opCfgOf cfg).account.getD ("")

/-- `email_field = op_config.get("email_field", "username")`. -/
def emailFieldOf (cfg : Config) : String :=
  (opCfgOf cfg).email_field.getD ("username")

/-- `password_field = op_config.get("password_field", "password")`. -/
def passwordFieldOf (cfg : Config) : String :=
  (opCfgOf cfg).password_field.getD ("password")

/-- `email_ref = f"op://{vault}/{item}/{email_field}"`. -/
def email_ref (cfg : Config) : String :=
  "op://" ++ vaultOf cfg ++ "/" ++ itemOf cfg ++ "/" ++ emailFieldOf cfg

/-- `password_ref = f"op://{vault}/{item}/{password_field}"`. -/
def password_ref (cfg : Config) : String :=
  "op://" ++ vaultOf cfg ++ "/" ++ itemOf cfg ++ "/" ++ passwordFieldOf cfg

/-- Outcome of `get_credentials`: either a returned `(email, password)`
pair or a `sys.exit(code)` after printing `stderr` lines. -/
inductive CredResult where
  | ok (email password : String)
  | exit (code : Nat) (stderr : List String)
deriving Repr, DecidableEq

/-- The three stderr lines printed when neither source yields
credentials (lines 94–96 of the script). -/
def credErrorLines : List String :=
  [ "Error: Garmin credentials not found."
  , "Set GARMIN_EMAIL and GARMIN_PASSWORD environment variables,"
  , "or configure 1Password in config.json" ]

/-- The environment-variable fallback at the end of `get_credentials`:
read `GARMIN_EMAIL` / `GARMIN_PASSWORD` with default `""`; if either is
empty, print the diagnostic and `sys.exit(1)`. -/
def env_fallback (env : String → Option String) : CredResult :=
  let email := (env ("GARMIN_EMAIL")).getD ("")
  let password := (env ("GARMIN_PASSWORD")).getD ("")
  if email == "" || password == "" then
    CredResult.exit 1 credErrorLines
  else
    CredResult.ok email password

/-- The 1Password step of `get_credentials` (lines 60–87): when
configured, invoke `op read <ref> --account <account>` once per
reference, strip both outputs, and yield the pair only when both calls
succeed and both stripped values are nonempty.  The second component
records the `(reference, account)` arguments of every `op` invocation
performed, in order; `subprocess.check_output` raising
(`CalledProcessError`, `FileNotFoundError`) is the oracle returning
`none`, which aborts the step (an abort after the first call never runs
the second). -/
def op_step (cfg : Config) (op : String → String → Option String) :
    Option (String × String) × List (String × String) :=
  if opConfigured cfg then
    match op (email_ref cfg) (accountOf cfg) with
    | none => (none, [(email_ref cfg, accountOf cfg)])
    | some rawEmail =>
      match op (password_ref cfg) (accountOf cfg) with
      | none => (none, [(email_ref cfg, accountOf cfg), (password_ref cfg, accountOf cfg)])
      | some rawPassword =>
        let email := rawEmail.trim
        let password := rawPassword.trim
        ( if !(email == "") && !(password == "") then some (email, password) else none
        , [(email_ref cfg, accountOf cfg), (password_ref cfg, accountOf cfg)] )
  else (none, [])

/-- `get_credentials(config)`: try the 1Password step; if it returns a
pair, that pair is the result; otherwise fall through to the
environment-variable fallback.  The second component is the list of
secret-manager invocations performed. -/
def get_credentials (cfg : Config) (op : String → String → Option String)
    (env : String → Option String) : CredResult × List (String × String) :=
  match op_step cfg op with
  | (some (email, password), calls) => (CredResult.ok email password, calls)
  | (none, calls) => (env_fallback env, calls)

/-- Helper: a pair returned by `get_credentials` never has an empty
component — the 1Password path guards `if email and password` on the
stripped values, and the fallback guards `if not email or not password`. -/
theorem get_credentials_ok_nonempty (cfg : Config)
    (op : String → String → Option String) (env : String → Option String)
    (e p : String) (h : (get_credentials cfg op env).1 = CredResult.ok e p) :
    e ≠ "" ∧ p ≠ "" := by
  unfold get_credentials op_step at h
  by_cases hc : opConfigured cfg
  · simp only [hc, if_true] at h
    cases h1 : op (email_ref cfg) (accountOf cfg) with
    | none =>
      simp only [h1] at h
      unfold env_fallback at h
      by_cases he : ((env ("GARMIN_EMAIL")).getD ("") == "") || ((env ("GARMIN_PASSWORD")).getD ("") == "")
      · simp [he] at h
      · simp only [he, if_false] at h
        cases h
        simp only [Bool.or_eq_true, beq_iff_eq, not_or] at he
        push_neg at he
        exact he
    | some rawEmail =>
      simp only [h1] at h
      cases h2 : op (password_ref cfg) (accountOf cfg) with
      | none =>
        simp only [h2] at h
        unfold env_fallback at h
        by_cases he : ((env ("GARMIN_EMAIL")).getD ("") == "") || ((env ("GARMIN_PASSWORD")).getD ("") == "")
        · simp [he] at h
        · simp only [he, if_false] at h
          cases h
          simp only [Bool.or_eq_true, beq_iff_eq, not_or] at he
          push_neg at he
          exact he
      | some rawPassword =>
        simp only [h2] at h
        by_cases hne : !(rawEmail.trim == "") && !(rawPassword.trim == "")
        · simp only [hne, if_true] at h
          cases h
          simp only [Bool.and_eq_true, Bool.not_eq_true', beq_eq_false_iff_ne] at hne
          exact hne
        · simp only [hne, if_false] at h
          unfold env_fallback at h
          by_cases he : ((env ("GARMIN_EMAIL")).getD ("") == "") || ((env ("GARMIN_PASSWORD")).getD ("") == "")
          · simp [he] at h
          · simp only [he, if_false] at h
            cases h
            simp only [Bool.or_eq_true, beq_iff_eq, not_or] at he
            push_neg at he
            exact he
  · simp only [hc, if_false] at h
    unfold env_fallback at h
    by_cases he : ((env ("GARMIN_EMAIL")).getD ("") == "") || ((env ("GARMIN_PASSWORD")).getD ("") == "")
    · simp [he] at h
    · simp only [he, if_false] at h
      cases h
      simp only [Bool.or_eq_true, beq_iff_eq, not_or] at he
      push_neg at he
      exact he

/-- C1: if the `garmin.onepassword` subsection is configured (account and
item both truthy) and the secret-manager path fails — the first `op`
invocation raises, or the second raises, or either captured value is
empty after stripping — then `get_credentials` reports no error for that
path and its result is exactly the environment-variable fallback. -/
theorem get_credentials_op_failure_falls_through (cfg : Config)
    (op : String → String → Option String) (env : String → Option String)
    (hconf : opConfigured cfg = true)
    (hfail : op (email_ref cfg) (accountOf cfg) = none
      ∨ (∃ r, op (email_ref cfg) (accountOf cfg) = some r
          ∧ op (password_ref cfg) (accountOf cfg) = none)
      ∨ (∃ r s, op (email_ref cfg) (accountOf cfg) = some r
          ∧ op (password_ref cfg) (accountOf cfg) = some s
          ∧ (r.trim = "" ∨ s.trim = ""))) :
    (get_credentials cfg op env).1 = env_fallback env := by
  unfold get_credentials op_step
  rcases hfail with h1 | ⟨r, h1, h2⟩ | ⟨r, s, h1, h2, h3⟩
  · simp [hconf, h1]
  · simp [hconf, h1, h2]
  · rcases h3 with h3 | h3 <;> simp [hconf, h1, h2, h3]

/-- Witness configuration with the 1Password subsection set. -/
def cfgOpW : Config :=
  { garmin := some { onepassword := some { account := some ("me@example.org"), item := some ("Garmin") } } }

/-- Oracle modelling an `op` tool that always fails. -/
def opNoneW : String → String → Option String := fun _ _ => none

/-- Environment with no variables set. -/
def envNoneW : String → Option String := fun _ => none

/-- Witness for C1: a configured 1Password section whose `op` tool fails
on the first invocation falls through to the environment fallback. -/
theorem get_credentials_op_failure_falls_through_witness :
    opConfigured cfgOpW = true
      ∧ (get_credentials cfgOpW opNoneW envNoneW).1 = env_fallback envNoneW :=
  ⟨by decide,
   get_credentials_op_failure_falls_through cfgOpW opNoneW envNoneW (by decide) (Or.inl rfl)⟩

/-- C3: when the `onepassword` subsection is missing, or lacks a truthy
`account` or `item`, `get_credentials` performs no secret-manager
invocation at all (empty call list) and its result is exactly the
environment-variable fallback. -/
theorem get_credentials_skips_op_when_unconfigured (cfg : Config)
    (op : String → String → Option String) (env : String → Option String)
    (h : opConfigured cfg = false) :
    get_credentials cfg op env = (env_fallback env, []) := by
  unfold get_credentials op_step
  simp [h]

/-- Witness for C3: the empty configuration performs no `op` call and
reads only the environment. -/
theorem get_credentials_skips_op_when_unconfigured_witness :
    opConfigured {} = false
      ∧ get_credentials {} opNoneW envNoneW = (env_fallback envNoneW, []) :=
  ⟨by decide,
   get_credentials_skips_op_when_unconfigured {} opNoneW envNoneW (by decide)⟩

/-- Counterexample for C2 as stated: at the concrete input (empty
configuration, no `op` tool, empty environment) the resolver does exit
with status 1 mentioning both fallback options, but the diagnostic it
prints is three lines, not two (an error header plus the two lines
explaining the fallback options). -/
theorem env_fallback_diagnostic_not_two_lines :
    (get_credentials {} opNoneW envNoneW).1 = CredResult.exit 1 credErrorLines
      ∧ credErrorLines.length = 3 ∧ credErrorLines.length ≠ 2 := by
  refine ⟨rfl, rfl, by decide⟩

/-- C2 (amended): whenever the environment-variable fallback is reached
(the 1Password step yielded nothing) and either `GARMIN_EMAIL` or
`GARMIN_PASSWORD` is absent or empty, resolution exits with status 1
after printing a three-line diagnostic whose last two lines explain the
two fallback options; and `get_credentials` never returns a pair with an
empty identity or secret. -/
theorem env_fallback_failure_exits (cfg : Config)
    (op : String → String → Option String) (env : String → Option String)
    (hfb : (op_step cfg op).1 = none)
    (hmiss : (env ("GARMIN_EMAIL")).getD ("") = "" ∨ (env ("GARMIN_PASSWORD")).getD ("") = "") :
    (get_credentials cfg op env).1 = CredResult.exit 1 credErrorLines
      ∧ credErrorLines.length = 3
      ∧ credErrorLines.get? 1 = some ("Set GARMIN_EMAIL and GARMIN_PASSWORD environment variables,")
      ∧ credErrorLines.get? 2 = some ("or configure 1Password in config.json")
      ∧ (∀ (cfg2 : Config) (op2 : String → String → Option String)
          (env2 : String → Option String) (e p : String),
          (get_credentials cfg2 op2 env2).1 = CredResult.ok e p → e ≠ "" ∧ p ≠ "") := by
  refine ⟨?_, rfl, rfl, rfl, fun cfg2 op2 env2 e p h => get_credentials_ok_nonempty cfg2 op2 env2 e p h⟩
  unfold get_credentials
  cases hstep : op_step cfg op with
  | mk fst snd =>
    cases fst with
    | some pr =>
      rw [hstep] at hfb
      simp at hfb
    | none =>
      simp only
      unfold env_fallback
      rcases hmiss with h | h <;> simp [h]

/-- Witness for C2 (amended): empty configuration and empty environment
exit with status 1 and the three-line diagnostic. -/
theorem env_fallback_failure_exits_witness :
    (op_step {} opNoneW).1 = none
      ∧ (envNoneW ("GARMIN_EMAIL")).getD ("") = ""
      ∧ (get_credentials {} opNoneW envNoneW).1 = CredResult.exit 1 credErrorLines :=
  ⟨rfl, rfl, (env_fallback_failure_exits {} opNoneW envNoneW rfl (Or.inl rfl)).1⟩

/-- The fixed water-sport whitelist (`WATER_SPORT_TYPES`). -/
def WATER_SPORT_TYPES : List String :=
  [ "kayaking"
  , "whitewater_rafting_v2"
  , "stand_up_paddleboarding"
  , "paddling"
  , "canoeing"
  , "rowing" ]

/-- The nested `activityType` dictionary of a raw record; its `typeKey`
may be absent. -/
structure ActivityTypeInfo where
  typeKey : Option String := none
deriving Repr, DecidableEq

/-- A raw activity record as returned by the remote listing call; every
field the script reads, `none` meaning the key is absent.  Numeric
fields are embedded as rationals (JSON numbers). -/
structure RawActivity where
  activityId : Option Int := none
  activityType : Option ActivityTypeInfo := none
  activityName : Option String := none
  startTimeLocal : Option String := none
  duration : Option ℚ := none
  distance : Option ℚ := none
deriving Repr, DecidableEq

/-- `activity.get("activityType", {}).get("typeKey", "")`. -/
def activityTypeKey (a : RawActivity) : String :=
  (a.activityType.getD {}).typeKey.getD ("")

/-- The normalized summary record built by `list_activities`. -/
structure ActivitySummary where
  id : Int
  name : String
  type : String
  date : String
  duration : ℚ
  distance : ℚ
deriving Repr, DecidableEq

/-- The projection of one whitelisted raw record into its summary, as
built inside the loop of `list_activities`: `activity["activityId"]`
(here rendered total with `getD 0`; the partiality is kept in
`list_activities` itself), `activity.get("activityName", "Unnamed")`,
`activity.get("startTimeLocal", "")[:10]`, `activity.get("duration", 0)`,
`activity.get("distance", 0)`. -/
def specSummarize (a : RawActivity) : ActivitySummary :=
  { id := a.activityId.getD 0
  , name := a.activityName.getD ("Unnamed")
  , type := activityTypeKey a
  , date := ((a.startTimeLocal.getD ("")).take 10)
  , duration := a.duration.getD 0
  , distance := a.distance.getD 0 }

/-- The filtering loop of `list_activities` (lines 124–137): keep the
records whose `typeKey` is in the whitelist, in input order, projecting
each into a summary.  `activity["activityId"]` is a direct key index:
a whitelisted record without the key raises `KeyError`, modelled as
`Except.error`. -/
def list_activities : List RawActivity → Except String (List ActivitySummary)
  | [] => Except.ok []
  | a :: rest =>
    if WATER_SPORT_TYPES.contains (activityTypeKey a) then
      match a.activityId with
      | none => Except.error ("KeyError: activityId")
      | some i =>
        match list_activities rest with
        | Except.error e => Except.error e
        | Except.ok l =>
          Except.ok (
            { id := i
            , name := a.activityName.getD ("Unnamed")
            , type := activityTypeKey a
            , date := ((a.startTimeLocal.getD ("")).take 10)
            , duration := a.duration.getD 0
            , distance := a.distance.getD 0 } :: l)
    else list_activities rest

/-- C4: on any input whose whitelisted records carry an `activityId`
(the partiality that claim C9 isolates), `list_activities` succeeds and
returns exactly the summaries of the records whose `typeKey` is
case-sensitively in the whitelist, in input order — so a record yields a
summary iff it matches, duplicates by `id` are preserved (the map keeps
one summary per filtered record), and every summary's `type` is in the
whitelist. -/
theorem list_activities_whitelist_filter (acts : List RawActivity)
    (h : ∀ a ∈ acts, WATER_SPORT_TYPES.contains (activityTypeKey a) = true → a.activityId.isSome) :
    list_activities acts
        = Except.ok ((acts.filter (fun a => WATER_SPORT_TYPES.contains (activityTypeKey a))).map specSummarize)
      ∧ ∀ s ∈ (acts.filter (fun a => WATER_SPORT_TYPES.contains (activityTypeKey a))).map specSummarize,
          s.type ∈ WATER_SPORT_TYPES := by
  constructor
  · induction acts with
    | nil => rfl
    | cons a rest ih =>
      have hrest := ih (fun b hb hw => h b (List.mem_cons_of_mem a hb) hw)
      by_cases hw : WATER_SPORT_TYPES.contains (activityTypeKey a) = true
      · have hmem : activityTypeKey a ∈ WATER_SPORT_TYPES := by
          simpa [List.contains] using hw
        have hid := h a (List.mem_cons_self a rest) hw
        cases hida : a.activityId with
        | none => rw [hida] at hid; simp at hid
        | some i =>
          unfold list_activities
          rw [hw, if_pos rfl, hida, hrest]
          simp [List.filter_cons, hmem, specSummarize, hida]
      · have hmem : activityTypeKey a ∉ WATER_SPORT_TYPES := by
          simpa [List.contains] using hw
        unfold list_activities
        rw [Bool.not_eq_true] at hw
        rw [hw]
        simp only [Bool.false_eq_true, if_false]
        rw [hrest]
        simp [List.filter_cons, hmem]
  · intro s hs
    rcases List.mem_map.mp hs with ⟨a, ha, rfl⟩
    have hw := List.of_mem_filter ha
    have : activityTypeKey a ∈ WATER_SPORT_TYPES := by
      simpa [List.contains] using hw
    simpa [specSummarize] using this

/-- Raw record of Scenario C: a kayaking activity with all fields set. -/
def rawScenC : RawActivity :=
  { activityId := some 42
  , activityType := some { typeKey := some ("kayaking") }
  , activityName := some ("Morning paddle")
  , startTimeLocal := some ("2024-05-01 08:00")
  , duration := some 3600
  , distance := some 5000 }

/-- A non-whitelisted raw record (type `running`, no id at all). -/
def rawRunW : RawActivity :=
  { activityType := some { typeKey := some ("running") } }

/-- Witness for C4: a two-record list (one kayaking, one running) filters
to exactly the kayaking summary. -/
theorem list_activities_whitelist_filter_witness :
    (∀ a ∈ [rawScenC, rawRunW],
        WATER_SPORT_TYPES.contains (activityTypeKey a) = true → a.activityId.isSome)
      ∧ list_activities [rawScenC, rawRunW]
          = Except.ok (([rawScenC, rawRunW].filter
              (fun a => WATER_SPORT_TYPES.contains (activityTypeKey a))).map specSummarize) :=
  ⟨by decide, (list_activities_whitelist_filter [rawScenC, rawRunW] (by decide)).1⟩

/-- C5: a whitelisted raw record with an `activityId` projects to a
single summary without error; a missing name becomes `"Unnamed"`, a
missing duration or distance becomes `0`, and the date is the first ten
characters of the start timestamp, with a missing or empty timestamp
yielding an empty date rather than an error. -/
theorem list_activities_projection_defaults (a : RawActivity) (i : Int)
    (hw : WATER_SPORT_TYPES.contains (activityTypeKey a) = true)
    (hid : a.activityId = some i) :
    list_activities [a] = Except.ok [specSummarize a]
      ∧ (a.activityName = none → (specSummarize a).name = "Unnamed")
      ∧ (a.duration = none → (specSummarize a).duration = 0)
      ∧ (a.distance = none → (specSummarize a).distance = 0)
      ∧ (specSummarize a).date = ((a.startTimeLocal.getD ("")).take 10)
      ∧ (a.startTimeLocal = none → (specSummarize a).date = "") := by
  refine ⟨?_, ?_, ?_, ?_, by simp [specSummarize], ?_⟩
  · unfold list_activities
    rw [hw, if_pos rfl, hid]
    simp [list_activities, specSummarize, hid]
  · intro h; simp [specSummarize, h]
  · intro h; simp [specSummarize, h]
  · intro h; simp [specSummarize, h]
  · intro h
    simp only [specSummarize, h, Option.getD_none]
    rfl

/-- Witness for C5 (Scenario C): the kayaking record with id 42 projects
to exactly the expected summary. -/
theorem list_activities_projection_defaults_witness :
    WATER_SPORT_TYPES.contains (activityTypeKey rawScenC) = true
      ∧ rawScenC.activityId = some 42
      ∧ list_activities [rawScenC] = Except.ok [specSummarize rawScenC]
      ∧ specSummarize rawScenC
          = { id := 42, name := "Morning paddle", type := "kayaking"
            , date := "2024-05-01", duration := 3600, distance := 5000 } :=
  ⟨by decide, rfl,
   (list_activities_projection_defaults rawScenC 42 (by decide) rfl).1, by decide⟩

/-- A whitelisted (kayaking) raw record with no `activityId` key and no
optional fields at all. -/
def rawNoIdW : RawActivity :=
  { activityType := some { typeKey := some ("kayaking") } }

/-- The same record with the `activityId` key present. -/
def rawWithIdW : RawActivity :=
  { rawNoIdW with activityId := some 7 }

/-- C9: a whitelisted record lacking `activityId` makes the filter raise
an uncaught `KeyError` (the id is read by direct key indexing), while the
same record with the id present succeeds with every other field read
totally through its default. -/
theorem list_activities_keyerror_on_missing_id :
    list_activities [rawNoIdW] = Except.error ("KeyError: activityId")
      ∧ list_activities [rawWithIdW]
          = Except.ok [{ id := 7, name := "Unnamed", type := "kayaking"
                       , date := "", duration := 0, distance := 0 }] := by
  constructor <;> rfl

/-- Observable side effects of the fetch functions, in program order:
`mkdir -p` on the output directory, a download attempt for an activity
id, a binary file write, a stdout line, a stderr line. -/
inductive Ev where
  | mkdir (dir : String)
  | download (id : Int)
  | write (path : String) (data : String)
  | out (line : String)
  | err (line : String)
deriving Repr, DecidableEq

/-- `filepath = output_path / f"activity_{activity_id}.gpx"` (path join
modelled as concatenation with a separator). -/
def pathFor (output_dir : String) (activity_id : Int) : String :=
  output_dir ++ "/activity_" ++ toString activity_id ++ ".gpx"

/-- `f"Error fetching GPX for activity {activity_id}: {e}"`. -/
def fetchErrLine (activity_id : Int) (e : String) : String :=
  "Error fetching GPX for activity " ++ toString activity_id ++ ": " ++ e

/-- `fetch_gpx(client, activity_id, output_dir)` (lines 140–157): first
`output_path.mkdir(parents=True, exist_ok=True)`, then the download
attempt; on success write the bytes and return the path, on a download
exception print the diagnostic to stderr and return `None`.  The result
is the returned value paired with the ordered effect trace. -/
def fetch_gpx (dl : Int → Except String String) (activity_id : Int)
    (output_dir : String) : Option String × List Ev :=
  match dl activity_id with
  | Except.ok gpx_data =>
    ( some (pathFor output_dir activity_id)
    , [Ev.mkdir output_dir, Ev.download activity_id,
       Ev.write (pathFor output_dir activity_id) gpx_data] )
  | Except.error e =>
    ( none
    , [Ev.mkdir output_dir, Ev.download activity_id,
       Ev.err (fetchErrLine activity_id e)] )

/-- The per-activity result dictionary collected by `fetch-all`. -/
structure FetchResult where
  id : Int
  name : String
  date : String
  file : String
deriving Repr, DecidableEq

/-- `json.dumps` of one result dictionary (string escaping is not
modelled; no claim depends on the JSON text). -/
def jsonOfResult (r : FetchResult) : String :=
  "\x7b\"id\": " ++ toString r.id ++ ", \"name\": \"" ++ r.name
    ++ "\", \"date\": \"" ++ r.date ++ "\", \"file\": \"" ++ r.file ++ "\"\x7d"

/-- `json.dumps` of the result list. -/
def jsonDump (rs : List FetchResult) : String :=
  "[" ++ String.intercalate (", ") (rs.map jsonOfResult) ++ "]"

/-- `f"No water sport activities found in the last {days} days."`. -/
def noneFoundLine (days : Int) : String :=
  "No water sport activities found in the last " ++ toString days ++ " days."

/-- The `for act in activities:` loop of the `fetch-all` branch (lines
223–234): fetch each activity independently in list order; on success
append the result dictionary and, in text mode, print the
`Downloaded:` line; on failure collect nothing for that activity. -/
def fetchAllLoop (dl : Int → Except String String) (dir : String) (jm : Bool) :
    List ActivitySummary → List FetchResult × List Ev
  | [] => ([], [])
  | act :: rest =>
    match fetch_gpx dl act.id dir with
    | (some fp, evs) =>
      ( { id := act.id, name := act.name, date := act.date, file := fp }
          :: (fetchAllLoop dl dir jm rest).1
      , evs ++ (if jm then [] else [Ev.out ("Downloaded: " ++ fp)])
          ++ (fetchAllLoop dl dir jm rest).2 )
    | (none, evs) =>
      ((fetchAllLoop dl dir jm rest).1, evs ++ (fetchAllLoop dl dir jm rest).2)

/-- The `fetch-all` branch of `main` (lines 213–237): an empty filtered
list short-circuits with `[]` (JSON mode) or the "none found" message
(text mode); otherwise run the loop and, in JSON mode, print the
serialized result list at the end. -/
def fetch_all_cmd (dl : Int → Except String String) (acts : List ActivitySummary)
    (dir : String) (jm : Bool) (days : Int) : List FetchResult × List Ev :=
  if acts.isEmpty then
    ([], [if jm then Ev.out (jsonDump []) else Ev.out (noneFoundLine days)])
  else
    ( (fetchAllLoop dl dir jm acts).1
    , (fetchAllLoop dl dir jm acts).2
        ++ (if jm then [Ev.out (jsonDump (fetchAllLoop dl dir jm acts).1)] else []) )

/-- The download attempts recorded in a trace, in order. -/
def downloadsOf (evs : List Ev) : List Int :=
  evs.filterMap (fun e => match e with | Ev.download i => some i | _ => none)

/-- The stderr lines recorded in a trace, in order. -/
def stderrOf (evs : List Ev) : List String :=
  evs.filterMap (fun e => match e with | Ev.err l => some l | _ => none)

/-- The stdout lines recorded in a trace, in order. -/
def stdoutOf (evs : List Ev) : List String :=
  evs.filterMap (fun e => match e with | Ev.out l => some l | _ => none)

/-- Helper: `downloadsOf` distributes over trace concatenation. -/
theorem downloadsOf_append (xs ys : List Ev) :
    downloadsOf (xs ++ ys) = downloadsOf xs ++ downloadsOf ys :=
  List.filterMap_append xs ys _

/-- Helper: `stderrOf` distributes over trace concatenation. -/
theorem stderrOf_append (xs ys : List Ev) :
    stderrOf (xs ++ ys) = stderrOf xs ++ stderrOf ys :=
  List.filterMap_append xs ys _

/-- Helper: `stdoutOf` distributes over trace concatenation. -/
theorem stdoutOf_append (xs ys : List Ev) :
    stdoutOf (xs ++ ys) = stdoutOf xs ++ stdoutOf ys :=
  List.filterMap_append xs ys _

/-- Helper: the loop step on a successful download. -/
theorem fetchAllLoop_cons_ok (dl : Int → Except String String) (dir : String)
    (jm : Bool) (act : ActivitySummary) (rest : List ActivitySummary) (d : String)
    (hdl : dl act.id = Except.ok d) :
    fetchAllLoop dl dir jm (act :: rest)
      = ( { id := act.id, name := act.name, date := act.date, file := pathFor dir act.id }
            :: (fetchAllLoop dl dir jm rest).1
        , [Ev.mkdir dir, Ev.download act.id, Ev.write (pathFor dir act.id) d]
            ++ (if jm then [] else [Ev.out ("Downloaded: " ++ pathFor dir act.id)])
            ++ (fetchAllLoop dl dir jm rest).2 ) := by
  have hstep : fetch_gpx dl act.id dir
      = ( some (pathFor dir act.id)
        , [Ev.mkdir dir, Ev.download act.id, Ev.write (pathFor dir act.id) d] ) := by
    unfold fetch_gpx
    rw [hdl]
  simp only [fetchAllLoop, hstep]

/-- Helper: the loop step on a failed download. -/
theorem fetchAllLoop_cons_error (dl : Int → Except String String) (dir : String)
    (jm : Bool) (act : ActivitySummary) (rest : List ActivitySummary) (e : String)
    (hdl : dl act.id = Except.error e) :
    fetchAllLoop dl dir jm (act :: rest)
      = ( (fetchAllLoop dl dir jm rest).1
        , [Ev.mkdir dir, Ev.download act.id, Ev.err (fetchErrLine act.id e)]
            ++ (fetchAllLoop dl dir jm rest).2 ) := by
  have hstep : fetch_gpx dl act.id dir
      = ( none
        , [Ev.mkdir dir, Ev.download act.id, Ev.err (fetchErrLine act.id e)] ) := by
    unfold fetch_gpx
    rw [hdl]
  simp only [fetchAllLoop, hstep]

/-- Helper: what one loop pass over the activity list produces — the
results of the successful downloads in order, one download attempt per
activity in order, one stderr diagnostic per failed activity in order,
and (in text mode) one stdout line per successful download. -/
theorem fetchAllLoop_spec (dl : Int → Except String String) (dir : String)
    (jm : Bool) (acts : List ActivitySummary) :
    (fetchAllLoop dl dir jm acts).1
        = acts.filterMap (fun a => match dl a.id with
            | Except.ok _ => some { id := a.id, name := a.name, date := a.date
                                  , file := pathFor dir a.id }
            | Except.error _ => none)
      ∧ downloadsOf (fetchAllLoop dl dir jm acts).2 = acts.map (fun a => a.id)
      ∧ stderrOf (fetchAllLoop dl dir jm acts).2
          = acts.filterMap (fun a => match dl a.id with
              | Except.ok _ => none
              | Except.error e => some (fetchErrLine a.id e))
      ∧ stdoutOf (fetchAllLoop dl dir jm acts).2
          = if jm then []
            else (fetchAllLoop dl dir jm acts).1.map (fun r => "Downloaded: " ++ r.file) := by
  induction acts with
  | nil => refine ⟨rfl, rfl, rfl, by cases jm <;> rfl⟩
  | cons act rest ih =>
    obtain ⟨ih1, ih2, ih3, ih4⟩ := ih
    cases hdl : dl act.id with
    | ok d =>
      rw [fetchAllLoop_cons_ok dl dir jm act rest d hdl]
      refine ⟨?_, ?_, ?_, ?_⟩
      · simp [List.filterMap_cons, hdl, ih1]
      · simp only [downloadsOf_append, ih2]
        cases jm <;> simp [downloadsOf]
      · simp only [stderrOf_append, ih3]
        cases jm <;> simp [stderrOf, List.filterMap_cons, hdl]
      · cases jm <;>
          simp_all [stdoutOf_append, stdoutOf, List.filterMap_cons]
    | error e =>
      rw [fetchAllLoop_cons_error dl dir jm act rest e hdl]
      refine ⟨?_, ?_, ?_, ?_⟩
      · simp [List.filterMap_cons, hdl, ih1]
      · simp only [downloadsOf_append, ih2]
        simp [downloadsOf]
      · simp only [stderrOf_append, ih3]
        simp [stderrOf, List.filterMap_cons, hdl]
      · simp only [stdoutOf_append, ih4]
        cases jm <;> simp [stdoutOf]

/-- C7: in batch fetch the downloads are attempted independently in list
order (one attempt per filtered activity, even after failures); a failed
activity contributes a stderr diagnostic naming its id and is omitted
from the result collection without stopping later downloads; the result
collection is exactly the successful activities in order; and an empty
filtered list yields an empty collection with no download attempted
(the `acts = []` instance of the first two conjuncts). -/
theorem fetch_all_isolates_failures (dl : Int → Except String String)
    (acts : List ActivitySummary) (dir : String) (jm : Bool) (days : Int) :
    (fetch_all_cmd dl acts dir jm days).1
        = acts.filterMap (fun a => match dl a.id with
            | Except.ok _ => some { id := a.id, name := a.name, date := a.date
                                  , file := pathFor dir a.id }
            | Except.error _ => none)
      ∧ downloadsOf (fetch_all_cmd dl acts dir jm days).2 = acts.map (fun a => a.id)
      ∧ stderrOf (fetch_all_cmd dl acts dir jm days).2
          = acts.filterMap (fun a => match dl a.id with
              | Except.ok _ => none
              | Except.error e => some (fetchErrLine a.id e)) := by
  obtain ⟨h1, h2, h3, _⟩ := fetchAllLoop_spec dl dir jm acts
  unfold fetch_all_cmd
  cases acts with
  | nil =>
    refine ⟨rfl, ?_, ?_⟩ <;> cases jm <;> rfl
  | cons act rest =>
    simp only [List.isEmpty_cons, Bool.false_eq_true, if_false]
    refine ⟨h1, ?_, ?_⟩
    · simp only [downloadsOf_append, h2]
      cases jm <;> simp [downloadsOf]
    · simp only [stderrOf_append, h3]
      cases jm <;> simp [stderrOf]

/-- C10: every single fetch emits the directory-creation effect first,
before the download is attempted (the trace begins `mkdir`, then
`download`); when the download fails the fetch returns no result and
prints the diagnostic, yet the directory creation has still occurred. -/
theorem fetch_gpx_creates_dir_before_download (dl : Int → Except String String)
    (activity_id : Int) (output_dir : String) :
    (fetch_gpx dl activity_id output_dir).2.take 2
        = [Ev.mkdir output_dir, Ev.download activity_id]
      ∧ (∀ e, dl activity_id = Except.error e →
          (fetch_gpx dl activity_id output_dir).1 = none
            ∧ (fetch_gpx dl activity_id output_dir).2
                = [Ev.mkdir output_dir, Ev.download activity_id,
                   Ev.err (fetchErrLine activity_id e)]) := by
  constructor
  · unfold fetch_gpx
    cases dl activity_id <;> rfl
  · intro e he
    unfold fetch_gpx
    rw [he]
    exact ⟨rfl, rfl⟩

/-- Download oracle that always fails with message `boom`. -/
def dlFailW : Int → Except String String := fun _ => Except.error ("boom")

/-- Witness for C10: with a failing download, the directory creation
still heads the trace and the fetch returns nothing. -/
theorem fetch_gpx_creates_dir_before_download_witness :
    (fetch_gpx dlFailW 5 ("out")).2.take 2 = [Ev.mkdir ("out"), Ev.download 5]
      ∧ (fetch_gpx dlFailW 5 ("out")).1 = none
      ∧ (fetch_gpx dlFailW 5 ("out")).2
          = [Ev.mkdir ("out"), Ev.download 5, Ev.err (fetchErrLine 5 ("boom"))] :=
  ⟨(fetch_gpx_creates_dir_before_download dlFailW 5 ("out")).1,
   ((fetch_gpx_creates_dir_before_download dlFailW 5 ("out")).2 ("boom") rfl).1,
   ((fetch_gpx_creates_dir_before_download dlFailW 5 ("out")).2 ("boom") rfl).2⟩

/-- C8 (amended): in text mode, fetch-all's stdout is exactly one
`Downloaded:` line per successfully downloaded file; when the filtered
activity list is empty the only output is the single "none found"
message; when the list is nonempty but no download succeeds, stdout is
empty — no message is printed. -/
theorem fetch_all_text_mode_output (dl : Int → Except String String)
    (acts : List ActivitySummary) (dir : String) (days : Int) :
    stdoutOf (fetch_all_cmd dl acts dir false days).2
      = if acts.isEmpty then [noneFoundLine days]
        else (fetch_all_cmd dl acts dir false days).1.map
          (fun r => "Downloaded: " ++ r.file) := by
  obtain ⟨-, -, -, h4⟩ := fetchAllLoop_spec dl dir false acts
  unfold fetch_all_cmd
  cases acts with
  | nil => rfl
  | cons act rest =>
    simp only [List.isEmpty_cons, Bool.false_eq_true, if_false]
    simp only [stdoutOf_append, h4, if_false]
    simp [stdoutOf]

/-- An arbitrary filtered activity used in the C8 counterexample. -/
def actAW : ActivitySummary :=
  { id := 1, name := "A", type := "kayaking", date := "2024-05-01"
  , duration := 0, distance := 0 }

/-- Counterexample for C8 as stated: one filtered activity whose download
fails makes the result set empty, yet text mode prints nothing at all —
in particular not the "none found" message the claim promises for every
empty result set (it is printed only when the filtered list is empty). -/
theorem fetch_all_empty_results_no_message :
    (fetch_all_cmd dlFailW [actAW] (".") false 30).1 = []
      ∧ stdoutOf (fetch_all_cmd dlFailW [actAW] (".") false 30).2 = []
      ∧ stdoutOf (fetch_all_cmd dlFailW [actAW] (".") false 30).2
          ≠ [noneFoundLine 30] := by
  refine ⟨rfl, rfl, ?_⟩
  intro h
  exact List.cons_ne_nil (noneFoundLine 30) [] h.symm
